import Mathlib

/-!
Verification development for the telegram_django_bot routing / dispatch layer.

Each definition is a shallow embedding of a function of the repository:
  * `commandPatternMatch`  — utrls/resolvers.py, CommandPattern.match
  * `telegramResolve`      — routing.py, telegram_resolve
  * `routerResolve`, `checkUpdate`, `handleUpdate`
                           — routing.py, RouterCallbackMessageCommandHandler
Fallible Python code (statements that can raise) is embedded in `Except`,
with the exception class name as the error value.
-/

namespace TDBot

/-- Splits a list of characters at every character satisfying `p`, keeping
empty segments, as Python `str.split(sep)` does: `"a@b".split("@") = ["a","b"]`,
`"".split("@") = [""]`, `"@".split("@") = ["",""]`. -/
def splitP (p : Char → Bool) : List Char → List (List Char)
  | [] => [[]]
  | c :: rest =>
    match splitP p rest, p c with
    | r, true => [] :: r
    | [], false => [[c]]
    | h :: t, false => (c :: h) :: t

theorem splitP_ne_nil (p : Char → Bool) (l : List Char) : splitP p l ≠ [] := by
  cases l with
  | nil => simp [splitP]
  | cons c rest =>
    simp only [splitP]
    rcases hr : splitP p rest with _ | ⟨h, t⟩ <;> cases hp : p c <;> simp

theorem splitP_length (p : Char → Bool) (l : List Char) :
    (splitP p l).length = l.countP p + 1 := by
  induction l with
  | nil => simp [splitP]
  | cons c rest ih =>
    simp only [splitP]
    rcases hr : splitP p rest with _ | ⟨h, t⟩ <;> cases hp : p c <;>
      simp_all [List.countP_cons, splitP_ne_nil]

/-- Python `s.split(sep)` for a one-character separator. -/
def pySplitChar (sep : Char) (s : String) : List String :=
  (splitP (fun c => c = sep) s.toList).map (fun l => String.mk l)

/-- Python `s.split()` (no argument): split on whitespace runs, dropping
empty segments. -/
def pySplitWs (s : String) : List String :=
  ((splitP (fun c => c.isWhitespace) s.toList).filter (fun l => l ≠ [])).map
    (fun l => String.mk l)

/-- Python `c in s` for a one-character needle. -/
def pyContains (s : String) (c : Char) : Bool :=
  decide (c ∈ s.toList)

/-- Python `set.add` on a set represented as a duplicate-free list in
first-insertion order. -/
def setInsert (x : String) (l : List String) : List String :=
  if x ∈ l then l else l ++ [x]

/-- Python `set(tokens)`: duplicate-free list of the tokens in
first-occurrence order. -/
def listToSet (l : List String) : List String :=
  l.foldl (fun acc x => setInsert x acc) []

/-- Python `d[k] = v` on a dict represented as an association list in
insertion order. -/
def dictInsert (k v : String) (d : List (String × String)) : List (String × String) :=
  if d.any (fun p => p.1 = k) then d.map (fun p => if p.1 = k then (k, v) else p)
  else d ++ [(k, v)]

/-- Result of `CommandPattern.match`: the command, the set of leftover
positional tokens and the extracted key/value mapping. -/
structure CommandMatch where
  command : String
  args : List String
  kwargs : List (String × String)
deriving Repr, DecidableEq

/-- utrls/resolvers.py, `CommandPattern.match(self, command)`.
`registered` is `self._command`.  `command.split("@")` unpacked into two
variables raises `ValueError` when the string holds more than one `@`;
the inner `arg.split("=")` has its `ValueError` caught (`try/except/else`),
so only tokens with exactly one `=` feed the kwargs dict.  The final loop
`args.discard(kwarg)` removes the bare key from the token set. -/
def commandPatternMatch (registered : String) (command : String) :
    Except String (Option CommandMatch) :=
  if command = "" then .ok none
  else
    let parts := if pyContains command '@' then pySplitChar '@' command
                 else [command, ""]
    match parts with
    | [cmd, argstr] =>
      if cmd = registered then
        let args0 := listToSet (pySplitWs argstr)
        let kwargs := args0.foldl
          (fun kw tok =>
            if pyContains tok '=' then
              match pySplitChar '=' tok with
              | [k, v] => dictInsert k v kw
              | _ => kw
            else kw) []
        let args1 := kwargs.foldl (fun acc kv => acc.filter (fun t => t ≠ kv.1)) args0
        .ok (some ⟨cmd, args1, kwargs⟩)
      else .ok none
    | _ => .error "ValueError"

/-- A registered route: a literal command pattern and the handler it maps to.
Models one `TelegramPattern` entry of the route table. -/
structure TgRoute where
  pattern : String
  handler : String
deriving Repr, DecidableEq

/-- The data of a successful resolution (Django `ResolverMatch`): the matched
pattern string (`route`), the handler, and the args/kwargs produced by
`CommandPattern.match`. -/
structure TgResolverMatch where
  route : String
  handler : String
  args : List String
  kwargs : List (String × String)
deriving Repr, DecidableEq

/-- Resolution against the route table: the first pattern whose
`CommandPattern.match` succeeds wins; no match yields `none`
(Django raises `Resolver404`, which `telegram_resolve` turns into `None`). -/
def resolveAgainst (routes : List TgRoute) (path : String) :
    Except String (Option TgResolverMatch) :=
  match routes with
  | [] => .ok none
  | r :: rest =>
    match commandPatternMatch r.pattern path with
    | .error e => .error e
    | .ok (some m) => .ok (some ⟨r.pattern, r.handler, m.args, m.kwargs⟩)
    | .ok none => resolveAgainst rest path

/-- Body of `telegram_resolve` on the character list of the path. -/
def telegramResolveList (routes : List TgRoute) :
    List Char → Except String (Option TgResolverMatch)
  | [] => .error "IndexError"
  | c :: cs =>
    let p1 := if c = '/' then c :: cs else '/' :: c :: cs
    let p2 := if '?' ∈ p1 then p1.takeWhile (fun ch => ch ≠ '?') else p1
    resolveAgainst routes (String.mk p2)

/-- routing.py, `telegram_resolve(path, utrl_conf)`: prepend `/` when missing
(`path[0]` raises `IndexError` on the empty string), cut at the first `?`,
then resolve against the table. -/
def telegramResolve (routes : List TgRoute) (path : String) :
    Except String (Option TgResolverMatch) :=
  telegramResolveList routes path.toList

/-- An inbound message: `text` is `None` for non-text messages. -/
structure TgMessage where
  text : Option String
deriving Repr, DecidableEq

/-- An inbound update, reduced to the fields the router reads:
`callback_query` holds the callback data string when the update is a
callback-query press. -/
structure TgUpdate where
  callback_query : Option String
  message : Option TgMessage
  effective_user : Nat
deriving Repr, DecidableEq

/-- The persisted conversation-state fields of models.py `TelegramAccount`
that the router reads. -/
structure RouterAccount where
  telegram_id : Nat
  current_utrl : String
deriving Repr, DecidableEq

/-- First stage of `RouterCallbackMessageCommandHandler.resolve`: a callback
query resolves its data string; a text message starting with `/` resolves the
text; anything else resolves to nothing yet. -/
def routerResolveStage1 (routes : List TgRoute) (u : TgUpdate) :
    Except String (Option TgResolverMatch) :=
  match u.callback_query with
  | some d => telegramResolve routes d
  | none =>
    match u.message with
    | some msg =>
      match msg.text with
      | some t =>
        match t.toList with
        | [] => .ok none
        | c :: _ => if c = '/' then telegramResolve routes t else .ok none
      | none => .ok none
    | none => .ok none

/-- routing.py, `RouterCallbackMessageCommandHandler.resolve(update)`:
if the first stage found nothing and the update is a message whose text is
`None` or does not start with `/` (reading `text[0]` of an empty text raises
`IndexError`), look up the account by `effective_user.id` and resolve its
stored non-empty `current_utrl`. -/
def routerResolve (routes : List TgRoute) (accounts : List RouterAccount)
    (u : TgUpdate) : Except String (Option TgResolverMatch) :=
  match routerResolveStage1 routes u with
  | .error e => .error e
  | .ok (some m) => .ok (some m)
  | .ok none =>
    match u.message with
    | none => .ok none
    | some msg =>
      let cond : Except String Bool :=
        match msg.text with
        | none => .ok true
        | some t =>
          match t.toList with
          | [] => .error "IndexError"
          | c :: _ => .ok (c ≠ '/')
      match cond with
      | .error e => .error e
      | .ok false => .ok none
      | .ok true =>
        match accounts.find? (fun a => a.telegram_id = u.effective_user) with
        | none => .ok none
        | some tg =>
          if tg.current_utrl = "" then .ok none
          else telegramResolve routes tg.current_utrl

/-- routing.py, `RouterCallbackMessageCommandHandler.check_update(update)`:
accept the update when something resolved, or (unless `only_utrl`) when it is
a `/`-command message or a callback query; Python `return None` is `false`. -/
def checkUpdate (routes : List TgRoute) (accounts : List RouterAccount)
    (only_utrl : Bool) (u : TgUpdate) : Except String Bool :=
  if u.message.isSome || u.callback_query.isSome then
    match routerResolve routes accounts u with
    | .error e => .error e
    | .ok (some _) => .ok true
    | .ok none =>
      if only_utrl then .ok false
      else
        match u.message with
        | some msg =>
          match msg.text with
          | some t =>
            match t.toList with
            | [] => if u.callback_query.isSome then .ok true else .ok false
            | c :: _ =>
              if c = '/' then .ok true
              else if u.callback_query.isSome then .ok true else .ok false
          | none => if u.callback_query.isSome then .ok true else .ok false
        | none => if u.callback_query.isSome then .ok true else .ok false
  else .ok false

/-- The callable `handle_update` dispatches to: a resolved view handler, or
one of the two catch-all BotMenuElem handlers of views/base.py. -/
inductive HandlerId where
  | view (name : String)
  | allCommandBME
  | allCallbackBME
deriving Repr, DecidableEq

/-- What `handle_update` invokes: the callable, the route string it is given,
and the positional / keyword arguments. -/
structure Dispatched where
  handler : HandlerId
  route : String
  args : List String
  kwargs : List (String × String)
deriving Repr, DecidableEq

/-- Python `route.replace("^", "").replace("$", "")`. -/
def stripCarets (s : String) : String :=
  String.mk (s.toList.filter (fun c => c ≠ '^' && c ≠ '$'))

/-- routing.py, `RouterCallbackMessageCommandHandler.handle_update`: a
resolved match calls its handler with the cleaned route and the extracted
arguments; otherwise the catch-all BotMenuElem handler is called with an
empty route and no arguments. -/
def handleUpdate (routes : List TgRoute) (accounts : List RouterAccount)
    (u : TgUpdate) : Except String Dispatched :=
  match routerResolve routes accounts u with
  | .error e => .error e
  | .ok (some m) => .ok ⟨.view m.handler, stripCarets m.route, m.args, m.kwargs⟩
  | .ok none =>
    if u.callback_query.isSome then .ok ⟨.allCallbackBME, "", [], []⟩
    else .ok ⟨.allCommandBME, "", [], []⟩

/-! Helper lemmas about the embedding. -/

theorem countP_eq_count (c : Char) (l : List Char) :
    l.countP (fun x => x = c) = l.count c := by
  induction l with
  | nil => rfl
  | cons a tl ih =>
    simp only [List.countP_cons, List.count_cons, ih]
    by_cases h : a = c <;> simp [h]

theorem resolveAgainst_no_match (path : String) (routes : List TgRoute)
    (hne : path ≠ "") (hat : '@' ∉ path.toList)
    (hreg : ∀ r ∈ routes, r.pattern ≠ path) :
    resolveAgainst routes path = .ok none := by
  induction routes with
  | nil => rfl
  | cons r rest ih =>
    have hpat : r.pattern ≠ path := hreg r (List.mem_cons_self r rest)
    have hrest : ∀ q ∈ rest, q.pattern ≠ path :=
      fun q hq => hreg q (List.mem_cons_of_mem r hq)
    simp only [resolveAgainst]
    rw [show commandPatternMatch r.pattern path = .ok none from ?_]
    · exact ih hrest
    · unfold commandPatternMatch
      rw [if_neg hne]
      have hc : pyContains path '@' = false := by
        simp only [pyContains, decide_eq_false_iff_not]
        exact hat
      rw [hc]
      simp only [Bool.false_eq_true, if_false]
      rw [if_neg (fun h => hpat h.symm)]

theorem telegramResolve_slash (cmd : String) (routes : List TgRoute)
    (cs : List Char) (hlist : cmd.toList = '/' :: cs)
    (hq : '?' ∉ cmd.toList) :
    telegramResolve routes cmd = resolveAgainst routes cmd := by
  have hmk : String.mk ('/' :: cs) = cmd := by
    cases cmd with
    | mk d =>
      have hd : d = '/' :: cs := hlist
      rw [hd]
  rw [telegramResolve, hlist]
  show resolveAgainst routes
      (String.mk (if '?' ∈ ('/' :: cs) then ('/' :: cs).takeWhile (fun ch => ch ≠ '?')
        else '/' :: cs)) = resolveAgainst routes cmd
  rw [if_neg (by rw [← hlist]; exact hq), hmk]

/-- C10: for every command string holding at most one `@` character,
`CommandPattern.match` is total — it returns a value (either no-match or a
`(command, args, kwargs)` triple) and raises no exception — and the match of
the empty string is no-match. -/
theorem claim_C10 (registered command : String)
    (h : command.toList.count '@' ≤ 1) :
    (∃ r : Option CommandMatch, commandPatternMatch registered command = .ok r)
    ∧ commandPatternMatch registered "" = .ok none := by
  refine ⟨?_, rfl⟩
  by_cases hc : command = ""
  · subst hc; exact ⟨none, rfl⟩
  · unfold commandPatternMatch
    rw [if_neg hc]
    by_cases hat : '@' ∈ command.toList
    · have h1 : command.toList.count '@' = 1 := by
        have hpos : 0 < command.toList.count '@' := List.count_pos_iff.mpr hat
        omega
      have hlen : (pySplitChar '@' command).length = 2 := by
        simp only [pySplitChar, List.length_map, splitP_length, countP_eq_count]
        rw [h1]
      obtain ⟨a, b, hab⟩ := List.length_eq_two.mp hlen
      have hpc : pyContains command '@' = true := by
        simp only [pyContains, decide_eq_true_eq]
        exact hat
      rw [hpc]
      simp only [if_true, hab]
      split <;> exact ⟨_, rfl⟩
    · have hpc : pyContains command '@' = false := by
        simp only [pyContains, decide_eq_false_iff_not]
        exact hat
      rw [hpc]
      simp only [Bool.false_eq_true, if_false]
      split <;> exact ⟨_, rfl⟩

/-- Witness for C10 at a concrete input. -/
theorem claim_C10_witness :
    ("/x@a" : String).toList.count '@' ≤ 1 ∧
    ((∃ r : Option CommandMatch, commandPatternMatch "/x" "/x@a" = .ok r)
      ∧ commandPatternMatch "/x" "" = .ok none) :=
  ⟨by decide, claim_C10 "/x" "/x@a" (by decide)⟩

/-- C4: evaluation of `CommandPattern.match` at concrete inputs.  A command
whose part before `@` differs from the registered command yields no match,
and matching extracts the key/value mapping from `key=value` tokens; but a
consumed token (here `k=v`) stays in the returned positional-token set — only
the bare key (`k`) is discarded by `args.discard(kwarg)` — refuting the
claim's statement that consumed tokens do not also appear among the returned
positional tokens. -/
theorem claim_C4_eval :
    commandPatternMatch "/cmd" "/other@x" = .ok none ∧
    commandPatternMatch "/cmd" "/cmd@x k=v" =
      .ok (some ⟨"/cmd", ["x", "k=v"], [("k", "v")]⟩) ∧
    commandPatternMatch "/cmd" "/cmd@k k=v" =
      .ok (some ⟨"/cmd", ["k=v"], [("k", "v")]⟩) ∧
    "k=v" ∈ ["x", "k=v"] :=
  ⟨rfl, rfl, rfl, by decide⟩

/-- C3: a valid command string `/<name>` (no `@`, no `?`) with no registered
route of that pattern resolves to not-found; `check_update` still accepts the
update, and `handle_update` dispatches the catch-all BotMenuElem command
handler with an empty route and no arguments, raising no exception. -/
theorem claim_C3 (routes : List TgRoute) (accounts : List RouterAccount)
    (cmd : String) (cs : List Char) (uid : Nat)
    (hlist : cmd.toList = '/' :: cs)
    (hat : '@' ∉ cmd.toList) (hq : '?' ∉ cmd.toList)
    (hreg : ∀ r ∈ routes, r.pattern ≠ cmd) :
    telegramResolve routes cmd = .ok none ∧
    checkUpdate routes accounts false ⟨none, some ⟨some cmd⟩, uid⟩ = .ok true ∧
    handleUpdate routes accounts ⟨none, some ⟨some cmd⟩, uid⟩ =
      .ok ⟨.allCommandBME, "", [], []⟩ := by
  have hne : cmd ≠ "" := by
    intro h; rw [h] at hlist; exact List.noConfusion hlist
  have hres : telegramResolve routes cmd = .ok none := by
    rw [telegramResolve_slash cmd routes cs hlist hq]
    exact resolveAgainst_no_match cmd routes hne hat hreg
  have hstage1 : routerResolveStage1 routes ⟨none, some ⟨some cmd⟩, uid⟩ =
      .ok none := by
    show (match cmd.toList with
      | [] => (Except.ok none : Except String (Option TgResolverMatch))
      | c :: _ => if c = '/' then telegramResolve routes cmd
                  else .ok none) = .ok none
    rw [hlist]
    show (if ('/' : Char) = '/' then telegramResolve routes cmd
          else .ok none) = .ok none
    rw [if_pos rfl, hres]
  have hrr : routerResolve routes accounts ⟨none, some ⟨some cmd⟩, uid⟩ =
      .ok none := by
    show (match routerResolveStage1 routes ⟨none, some ⟨some cmd⟩, uid⟩ with
      | .error e => (Except.error e : Except String (Option TgResolverMatch))
      | .ok (some m) => .ok (some m)
      | .ok none =>
        match (match cmd.toList with
          | [] => (Except.error "IndexError" : Except String Bool)
          | c :: _ => .ok (c ≠ '/')) with
        | .error e => .error e
        | .ok false => .ok none
        | .ok true =>
          match accounts.find? (fun a : RouterAccount => a.telegram_id = uid) with
          | none => .ok none
          | some tg =>
            if tg.current_utrl = "" then .ok none
            else telegramResolve routes tg.current_utrl) = .ok none
    rw [hstage1, hlist]
    show (match (Except.ok (decide ¬('/' : Char) = '/') : Except String Bool) with
      | .error e => (Except.error e : Except String (Option TgResolverMatch))
      | .ok false => .ok none
      | .ok true =>
        match accounts.find? (fun a : RouterAccount => a.telegram_id = uid) with
        | none => .ok none
        | some tg =>
          if tg.current_utrl = "" then .ok none
          else telegramResolve routes tg.current_utrl) = .ok none
    rw [show (decide ¬('/' : Char) = '/') = false by decide]
  refine ⟨hres, ?_, ?_⟩
  · show (match routerResolve routes accounts ⟨none, some ⟨some cmd⟩, uid⟩ with
      | .error e => (Except.error e : Except String Bool)
      | .ok (some _) => .ok true
      | .ok none =>
        match cmd.toList with
        | [] => (Except.ok false : Except String Bool)
        | c :: _ => if c = '/' then .ok true else .ok false) = .ok true
    rw [hrr, hlist]
    show (if ('/' : Char) = '/' then (Except.ok true : Except String Bool)
          else .ok false) = .ok true
    rw [if_pos rfl]
  · show (match routerResolve routes accounts ⟨none, some ⟨some cmd⟩, uid⟩ with
      | .error e => (Except.error e : Except String Dispatched)
      | .ok (some m) =>
          .ok ⟨.view m.handler, stripCarets m.route, m.args, m.kwargs⟩
      | .ok none => .ok ⟨.allCommandBME, "", [], []⟩) =
        .ok ⟨.allCommandBME, "", [], []⟩
    rw [hrr]

/-- Witness for C3 at a concrete input. -/
theorem claim_C3_witness :
    ("/nope" : String).toList = '/' :: ['n', 'o', 'p', 'e'] ∧
    telegramResolve [⟨"/start", "startview"⟩] "/nope" = .ok none ∧
    checkUpdate [⟨"/start", "startview"⟩] [] false
      ⟨none, some ⟨some "/nope"⟩, 7⟩ = .ok true ∧
    handleUpdate [⟨"/start", "startview"⟩] []
      ⟨none, some ⟨some "/nope"⟩, 7⟩ = .ok ⟨.allCommandBME, "", [], []⟩ :=
  ⟨by decide,
    claim_C3 [⟨"/start", "startview"⟩] [] "/nope" ['n', 'o', 'p', 'e'] 7
      (by decide) (by decide) (by decide)
      (by intro r hr; fin_cases hr; decide)⟩

/-- C1: for an account whose stored `current_utrl` is non-empty and resolves
through the route table, and an inbound plain-text message not starting with
`/`, `RouterCallbackMessageCommandHandler.resolve` returns the stored route's
match and `handle_update` dispatches that match's handler — not the catch-all
content handler. -/
theorem claim_C1 (routes : List TgRoute) (accounts : List RouterAccount)
    (u : TgUpdate) (t : String) (c : Char) (cs : List Char)
    (acct : RouterAccount) (m : TgResolverMatch)
    (hcb : u.callback_query = none)
    (hmsg : u.message = some ⟨some t⟩)
    (htext : t.toList = c :: cs) (hslash : c ≠ '/')
    (hfind : accounts.find? (fun a => a.telegram_id = u.effective_user) =
      some acct)
    (hcur : acct.current_utrl ≠ "")
    (hres : telegramResolve routes acct.current_utrl = .ok (some m)) :
    routerResolve routes accounts u = .ok (some m) ∧
    handleUpdate routes accounts u =
      .ok ⟨.view m.handler, stripCarets m.route, m.args, m.kwargs⟩ ∧
    HandlerId.view m.handler ≠ HandlerId.allCommandBME := by
  have hrr : routerResolve routes accounts u = .ok (some m) := by
    simp only [routerResolve, routerResolveStage1, hcb, hmsg, htext]
    rw [if_neg hslash]
    simp only [hfind]
    rw [decide_eq_true hslash]
    simp only [if_neg hcur, hres]
  refine ⟨hrr, ?_, by simp⟩
  simp only [handleUpdate, hrr]

/-- Witness for C1 at a concrete input. -/
theorem claim_C1_witness :
    routerResolve [⟨"/form", "formview"⟩] [⟨7, "/form"⟩]
      ⟨none, some ⟨some "hello"⟩, 7⟩ =
      .ok (some ⟨"/form", "formview", [], []⟩) ∧
    handleUpdate [⟨"/form", "formview"⟩] [⟨7, "/form"⟩]
      ⟨none, some ⟨some "hello"⟩, 7⟩ =
      .ok ⟨.view "formview", stripCarets "/form", [], []⟩ ∧
    HandlerId.view "formview" ≠ HandlerId.allCommandBME :=
  claim_C1 [⟨"/form", "formview"⟩] [⟨7, "/form"⟩]
    ⟨none, some ⟨some "hello"⟩, 7⟩ "hello" 'h' ['e', 'l', 'l', 'o']
    ⟨7, "/form"⟩ ⟨"/form", "formview", [], []⟩
    rfl rfl (by decide) (by decide) (by decide) (by decide) rfl

/-! Throttling: throttling.py, `SimpleRateThrottle`.  Timestamps (Python
floats from `time.time()`) are embedded as rationals. -/

/-- Python `int(s)` restricted to the decimal digit strings the throttle
rates use; anything else raises `ValueError`. -/
def pyInt? (s : String) : Option Nat :=
  match s.toList with
  | [] => none
  | l =>
    if l.all (fun c => c.isDigit) then
      some (l.foldl (fun acc c => 10 * acc + (c.toNat - 48)) 0)
    else none

/-- throttling.py `parse_rate`: a non-`None` rate string
`"<number>/<period>"` yields `(num_requests, duration-in-seconds)`; the
duration is looked up by the period's first character. -/
def parseRate (rate : String) : Except String (Nat × Nat) :=
  match pySplitChar '/' rate with
  | [num, period] =>
    match pyInt? num with
    | some n =>
      match period.toList with
      | [] => .error "IndexError"
      | c :: _ =>
        if c = 's' then .ok (n, 1)
        else if c = 'm' then .ok (n, 60)
        else if c = 'h' then .ok (n, 3600)
        else if c = 'd' then .ok (n, 86400)
        else .error "KeyError"
    | none => .error "ValueError"
  | _ => .error "ValueError"

/-- The `while self.history and self.history[-1] <= self.now - self.duration:
self.history.pop()` loop of `allow_request`: repeatedly drop the last
(oldest) entry while it has left the window. -/
def evictOld (d : Nat) (now : ℚ) (hist : List ℚ) : List ℚ :=
  (hist.reverse.dropWhile (fun t => t ≤ now - (d : ℚ))).reverse

/-- Outcome of one `allow_request` call: the returned boolean, the in-memory
`self.history` when the call returns, and what the cache holds afterwards
(`throttle_success` stores the updated history; `throttle_failure` stores
nothing, leaving the cache unchanged). -/
structure ThrottleOutcome where
  allowed : Bool
  memHistory : List ℚ
  cache : List ℚ
deriving Repr, DecidableEq

/-- throttling.py `SimpleRateThrottle.allow_request` for a configured rate
`(numRequests, d)`, a cached history and the current time: evict old
entries, fail when the retained count reaches `num_requests`, otherwise
insert `now` at the front and store. -/
def allowRequest (numRequests d : Nat) (hist : List ℚ) (now : ℚ) :
    ThrottleOutcome :=
  if numRequests ≤ (evictOld d now hist).length then
    ⟨false, evictOld d now hist, hist⟩
  else
    ⟨true, now :: evictOld d now hist, now :: evictOld d now hist⟩

/-- throttling.py `SimpleRateThrottle.wait`, reading `self.history` and
`self.now` as left by the preceding `allow_request` call. -/
def waitSeconds (numRequests d : Nat) (hist : List ℚ) (now : ℚ) : Option ℚ :=
  if ((numRequests : ℤ) - hist.length + 1 : ℤ) ≤ 0 then none
  else some ((match hist.getLast? with
    | some oldest => (d : ℚ) - (now - oldest)
    | none => (d : ℚ)) /
      (((numRequests : ℤ) - hist.length + 1 : ℤ) : ℚ))

/-- A sequence of `allow_request` calls against one cache key, one per
timestamp: the list of verdicts and the final cached history. -/
def runThrottle (n d : Nat) (times : List ℚ) : List Bool × List ℚ :=
  times.foldl (fun acc t =>
    let o := allowRequest n d acc.2 t
    (acc.1 ++ [o.allowed], o.cache)) ([], [])

theorem dropWhile_le_eq_filter_of_sorted (c : ℚ) (l : List ℚ)
    (hs : l.Pairwise (· ≤ ·)) :
    l.dropWhile (fun t => t ≤ c) = l.filter (fun t => !decide (t ≤ c)) := by
  induction l with
  | nil => rfl
  | cons a tl ih =>
    rw [List.pairwise_cons] at hs
    by_cases ha : a ≤ c
    · rw [List.dropWhile_cons_of_pos (by simpa using ha),
        List.filter_cons_of_neg (by simpa using ha)]
      exact ih hs.2
    · rw [List.dropWhile_cons_of_neg (by simpa using ha),
        List.filter_cons_of_pos (by simpa using ha)]
      congr 1
      symm
      apply List.filter_eq_self.mpr
      intro b hb
      have hab : a ≤ b := hs.1 b hb
      simp only [Bool.not_eq_true', decide_eq_false_iff_not]
      intro hbc
      exact ha (le_trans hab hbc)

/-- On a newest-first (descending) history — the shape `throttle_success`
maintains under a monotone clock — the pop-from-the-back eviction loop
removes exactly the entries that have left the window. -/
theorem evictOld_sorted (d : Nat) (now : ℚ) (hist : List ℚ)
    (hs : hist.Pairwise (· ≥ ·)) :
    evictOld d now hist = hist.filter (fun t => !decide (t ≤ now - (d : ℚ))) := by
  unfold evictOld
  have hs2 : hist.reverse.Pairwise (· ≤ ·) := by
    rw [List.pairwise_reverse]
    exact hs
  rw [dropWhile_le_eq_filter_of_sorted _ _ hs2, ← List.filter_reverse,
    List.reverse_reverse]

theorem head?_dropWhile_false {p : ℚ → Bool} {l : List ℚ} {o : ℚ}
    (h : (l.dropWhile p).head? = some o) : p o = false := by
  have h2 := List.head?_dropWhile_not p l
  rw [h] at h2
  exact h2

theorem evictOld_oldest_inside (d : Nat) (now : ℚ) (hist : List ℚ) (o : ℚ)
    (h : (evictOld d now hist).getLast? = some o) :
    ¬ (o ≤ now - (d : ℚ)) := by
  unfold evictOld at h
  rw [List.getLast?_reverse] at h
  have := head?_dropWhile_false h
  simpa using this

theorem evictOld_subset (d : Nat) (now : ℚ) (hist : List ℚ) :
    ∀ t ∈ evictOld d now hist, t ∈ hist := by
  intro t ht
  unfold evictOld at ht
  rw [List.mem_reverse] at ht
  have := (List.dropWhile_sublist _).mem ht
  rwa [List.mem_reverse] at this

theorem evictOld_length_le (d : Nat) (now : ℚ) (hist : List ℚ) :
    (evictOld d now hist).length ≤ hist.length := by
  unfold evictOld
  rw [List.length_reverse]
  calc (hist.reverse.dropWhile (fun t => t ≤ now - (d : ℚ))).length
      ≤ hist.reverse.length := (List.dropWhile_sublist _).length_le
    _ = hist.length := List.length_reverse hist

/-- C2: `allow_request` first evicts the timestamps that have left the
window, denies exactly when the retained count has reached the configured
limit (recording nothing on denial), and records the current timestamp on
every allowed request; under rate `3/m`, four requests inside one minute
yield allow, allow, allow, deny, and a request 61 seconds after the first is
allowed again. -/
theorem claim_C2 :
    parseRate "3/m" = .ok (3, 60) ∧
    (∀ (n d : Nat) (hist : List ℚ) (now : ℚ),
      hist.Pairwise (· ≥ ·) →
      (allowRequest n d hist now).allowed =
          decide ((hist.filter (fun t => !decide (t ≤ now - (d : ℚ)))).length < n) ∧
      ((allowRequest n d hist now).allowed = true →
        (allowRequest n d hist now).cache =
          now :: hist.filter (fun t => !decide (t ≤ now - (d : ℚ)))) ∧
      ((allowRequest n d hist now).allowed = false →
        (allowRequest n d hist now).cache = hist)) ∧
    (∀ t1 t2 t3 t4 : ℚ, t1 ≤ t2 → t2 ≤ t3 → t3 ≤ t4 → t4 < t1 + 60 →
      (runThrottle 3 60 [t1, t2, t3, t4]).1 = [true, true, true, false] ∧
      ∀ t5 : ℚ, t1 + 61 ≤ t5 →
        (allowRequest 3 60 (runThrottle 3 60 [t1, t2, t3, t4]).2 t5).allowed
          = true) := by
  refine ⟨by rfl, ?_, ?_⟩
  · intro n d hist now hs
    have hev := evictOld_sorted d now hist hs
    by_cases hc : n ≤ (evictOld d now hist).length
    · rw [allowRequest, if_pos hc]
      rw [hev] at hc
      refine ⟨?_, ?_, fun _ => rfl⟩
      · simp [Nat.not_lt.mpr hc]
      · intro h; exact absurd h (by simp)
    · rw [allowRequest, if_neg hc]
      rw [hev] at hc
      refine ⟨?_, ?_, ?_⟩
      · simp [Nat.lt_of_not_le hc]
      · intro _; rw [hev]
      · intro h; exact absurd h (by simp)
  · intro t1 t2 t3 t4 h12 h23 h34 hwin
    have p1 : ¬ (t1 ≤ t2 - ((60 : Nat) : ℚ)) := by push_cast; linarith
    have p2 : ¬ (t1 ≤ t3 - ((60 : Nat) : ℚ)) := by push_cast; linarith
    have p3 : ¬ (t1 ≤ t4 - ((60 : Nat) : ℚ)) := by push_cast; linarith
    have e1 : allowRequest 3 60 [] t1 = ⟨true, [t1], [t1]⟩ := rfl
    have ev2 : evictOld 60 t2 [t1] = [t1] := by
      unfold evictOld
      rw [show ([t1] : List ℚ).reverse = [t1] from rfl,
        List.dropWhile_cons_of_neg (by simpa using p1)]
      rfl
    have e2 : allowRequest 3 60 [t1] t2 = ⟨true, [t2, t1], [t2, t1]⟩ := by
      rw [allowRequest, ev2, if_neg (by simp)]
    have ev3 : evictOld 60 t3 [t2, t1] = [t2, t1] := by
      unfold evictOld
      rw [show ([t2, t1] : List ℚ).reverse = [t1, t2] from rfl,
        List.dropWhile_cons_of_neg (by simpa using p2)]
      rfl
    have e3 : allowRequest 3 60 [t2, t1] t3 = ⟨true, [t3, t2, t1], [t3, t2, t1]⟩ := by
      rw [allowRequest, ev3, if_neg (by simp)]
    have ev4 : evictOld 60 t4 [t3, t2, t1] = [t3, t2, t1] := by
      unfold evictOld
      rw [show ([t3, t2, t1] : List ℚ).reverse = [t1, t2, t3] from rfl,
        List.dropWhile_cons_of_neg (by simpa using p3)]
      rfl
    have e4 : allowRequest 3 60 [t3, t2, t1] t4 = ⟨false, [t3, t2, t1], [t3, t2, t1]⟩ := by
      rw [allowRequest, ev4, if_pos (by simp)]
    have hrun : runThrottle 3 60 [t1, t2, t3, t4] =
        ([true, true, true, false], [t3, t2, t1]) := by
      simp only [runThrottle, List.foldl, e1, e2, e3, e4]
      rfl
    refine ⟨by rw [hrun], ?_⟩
    intro t5 h5
    rw [hrun]
    show (allowRequest 3 60 [t3, t2, t1] t5).allowed = true
    have q1 : t1 ≤ t5 - ((60 : Nat) : ℚ) := by push_cast; linarith
    have hlen : (evictOld 60 t5 [t3, t2, t1]).length ≤ 2 := by
      unfold evictOld
      rw [List.length_reverse,
        show ([t3, t2, t1] : List ℚ).reverse = [t1, t2, t3] from rfl,
        List.dropWhile_cons_of_pos (by simpa using q1)]
      calc (([t2, t3] : List ℚ).dropWhile
            (fun t => t ≤ t5 - ((60 : Nat) : ℚ))).length
          ≤ ([t2, t3] : List ℚ).length := (List.dropWhile_sublist _).length_le
        _ = 2 := rfl
    rw [allowRequest, if_neg (by omega)]

/-- Witness for C2 at concrete inputs. -/
theorem claim_C2_witness :
    (([(5 : ℚ)].Pairwise (· ≥ ·)) ∧
      (allowRequest 2 60 [(5 : ℚ)] 10).allowed =
        decide ((([(5 : ℚ)].filter
          (fun t => !decide (t ≤ (10 : ℚ) - ((60 : Nat) : ℚ)))).length < 2))) ∧
    ((0 : ℚ) ≤ 10 ∧ (10 : ℚ) ≤ 20 ∧ (20 : ℚ) ≤ 30 ∧ (30 : ℚ) < 0 + 60) ∧
    (runThrottle 3 60 [0, 10, 20, 30]).1 = [true, true, true, false] ∧
    (allowRequest 3 60 (runThrottle 3 60 [0, 10, 20, 30]).2 61).allowed = true := by
  have hgen := (claim_C2.2.1 2 60 [(5 : ℚ)] 10 (by simp)).1
  have hsc := claim_C2.2.2 0 10 20 30 (by norm_num) (by norm_num) (by norm_num)
    (by norm_num)
  exact ⟨⟨by simp, hgen⟩, ⟨by norm_num, by norm_num, by norm_num, by norm_num⟩,
    hsc.1, hsc.2 61 (by norm_num)⟩

/-- C5: immediately after `allow_request` has denied a request, `wait()`
returns the time remaining until the oldest retained timestamp leaves the
window, divided by the remaining capacity `N - len(history) + 1` (which a
denial forces to 1); under rate `3/m` with past timestamps the value is
positive and at most 60; with an empty history the numerator is the full
window duration. -/
theorem claim_C5 :
    (∀ (n d : Nat) (hist : List ℚ) (now : ℚ),
      1 ≤ n → hist.length ≤ n →
      (allowRequest n d hist now).allowed = false →
      ∃ oldest,
        (allowRequest n d hist now).memHistory.getLast? = some oldest ∧
        ((n : ℚ) - (allowRequest n d hist now).memHistory.length + 1) = 1 ∧
        waitSeconds n d (allowRequest n d hist now).memHistory now =
          some (((d : ℚ) - (now - oldest)) /
            ((n : ℚ) - (allowRequest n d hist now).memHistory.length + 1))) ∧
    (∀ (hist : List ℚ) (now : ℚ),
      hist.length ≤ 3 → (∀ t ∈ hist, t ≤ now) →
      (allowRequest 3 60 hist now).allowed = false →
      ∃ w,
        waitSeconds 3 60 (allowRequest 3 60 hist now).memHistory now = some w ∧
        0 < w ∧ w ≤ 60) ∧
    (∀ (n d : Nat) (now : ℚ),
      waitSeconds n d [] now = some ((d : ℚ) / ((n : ℚ) + 1))) := by
  have key : ∀ (n d : Nat) (hist : List ℚ) (now : ℚ),
      1 ≤ n → hist.length ≤ n →
      (allowRequest n d hist now).allowed = false →
      ∃ oldest,
        (allowRequest n d hist now).memHistory.getLast? = some oldest ∧
        ((n : ℚ) - (allowRequest n d hist now).memHistory.length + 1) = 1 ∧
        waitSeconds n d (allowRequest n d hist now).memHistory now =
          some (((d : ℚ) - (now - oldest)) /
            ((n : ℚ) - (allowRequest n d hist now).memHistory.length + 1)) := by
    intro n d hist now hn hl hdeny
    by_cases hc : n ≤ (evictOld d now hist).length
    · have hle := evictOld_length_le d now hist
      have hlen : (evictOld d now hist).length = n :=
        le_antisymm (le_trans hle hl) hc
      have hmem : (allowRequest n d hist now).memHistory = evictOld d now hist := by
        rw [allowRequest, if_pos hc]
      have hne : evictOld d now hist ≠ [] := by
        intro h0
        rw [h0] at hlen
        simp at hlen
        omega
      rw [hmem]
      refine ⟨(evictOld d now hist).getLast hne,
        List.getLast?_eq_getLast _ hne, ?_, ?_⟩
      · rw [hlen]; ring
      · rw [waitSeconds, if_neg (by rw [hlen]; omega),
          List.getLast?_eq_getLast _ hne, hlen]
        push_cast
        norm_num
    · rw [allowRequest, if_neg hc] at hdeny
      exact absurd hdeny (by simp)
  refine ⟨key, ?_, ?_⟩
  · intro hist now hl hpast hdeny
    obtain ⟨o, ho, hdiv, hwait⟩ := key 3 60 hist now (by norm_num) hl hdeny
    rw [hdiv, div_one] at hwait
    have hmem : (allowRequest 3 60 hist now).memHistory = evictOld 60 now hist := by
      by_cases hc : 3 ≤ (evictOld 60 now hist).length
      · rw [allowRequest, if_pos hc]
      · rw [allowRequest, if_neg hc] at hdeny
        exact absurd hdeny (by simp)
    rw [hmem] at ho
    have hrecent : ¬ (o ≤ now - ((60 : Nat) : ℚ)) :=
      evictOld_oldest_inside 60 now hist o ho
    have hne : evictOld 60 now hist ≠ [] := by
      intro h0
      rw [h0] at ho
      exact Option.noConfusion ho
    have hin : o ∈ hist := by
      apply evictOld_subset 60 now hist o
      rw [List.getLast?_eq_getLast _ hne] at ho
      rw [show o = (evictOld 60 now hist).getLast hne from
        (Option.some.injEq _ _ ▸ ho).symm]
      exact List.getLast_mem hne
    have hpo : o ≤ now := hpast o hin
    refine ⟨((60 : Nat) : ℚ) - (now - o), hwait,
      by push_cast at hrecent ⊢; linarith, by push_cast; linarith⟩
  · intro n d now
    rw [waitSeconds, if_neg (by simp)]
    norm_num

/-- Witness for C5 at concrete inputs. -/
theorem claim_C5_witness :
    ((1 ≤ 3 ∧ ([(0 : ℚ), 0, 0] : List ℚ).length ≤ 3 ∧
        (allowRequest 3 60 [(0 : ℚ), 0, 0] 30).allowed = false) ∧
      ∃ oldest,
        (allowRequest 3 60 [(0 : ℚ), 0, 0] 30).memHistory.getLast? =
          some oldest ∧
        ((3 : ℚ) - (allowRequest 3 60 [(0 : ℚ), 0, 0] 30).memHistory.length + 1)
          = 1 ∧
        waitSeconds 3 60 (allowRequest 3 60 [(0 : ℚ), 0, 0] 30).memHistory 30 =
          some (((60 : ℚ) - (30 - oldest)) /
            ((3 : ℚ) -
              (allowRequest 3 60 [(0 : ℚ), 0, 0] 30).memHistory.length + 1))) ∧
    ∃ w,
      waitSeconds 3 60 (allowRequest 3 60 [(0 : ℚ), 0, 0] 30).memHistory 30 =
        some w ∧ 0 < w ∧ w ≤ 60 := by
  have hev : evictOld 60 30 ([(0 : ℚ), 0, 0]) = [0, 0, 0] := by
    unfold evictOld
    rw [show ([(0 : ℚ), 0, 0]).reverse = [0, 0, 0] from rfl,
      List.dropWhile_cons_of_neg (by norm_num)]
    rfl
  have hdeny : (allowRequest 3 60 [(0 : ℚ), 0, 0] 30).allowed = false := by
    rw [allowRequest, if_pos (by rw [hev]; norm_num)]
  constructor
  · refine ⟨⟨by norm_num, by norm_num, hdeny⟩, ?_⟩
    exact_mod_cast claim_C5.1 3 60 [(0 : ℚ), 0, 0] 30 (by norm_num) (by norm_num)
      hdeny
  · exact_mod_cast claim_C5.2.1 [(0 : ℚ), 0, 0] 30 (by norm_num)
      (by intro t ht; fin_cases ht <;> norm_num) hdeny

/-! Pagination: viewsets.py `show_list`, `show_list_get_queryset` and
`gm_show_list_create_pagination`. -/

/-- A pagination inline button; `target` is the page number embedded in the
button's callback data (`str(page - 1)` / `str(page + 1)`). -/
inductive PageButton where
  | prev (target : Int)
  | next (target : Int)
deriving Repr, DecidableEq

/-- viewsets.py `gm_show_list_create_pagination(page, count_models,
first_this_page, first_next_page, page_model_amount)`; the final `else`
branch only logs an error and leaves `buttons` empty. -/
def gm_show_list_create_pagination (page : Int) (count_models first_this_page
    first_next_page page_model_amount : Nat) : List (List PageButton) :=
  if page_model_amount < count_models then
    if 0 < first_this_page ∧ first_next_page < count_models then
      [[.prev (page - 1), .next (page + 1)]]
    else if first_this_page = 0 then [[.next (page + 1)]]
    else if count_models ≤ first_next_page then [[.prev (page - 1)]]
    else []
  else []

/-- The number of records on the requested page: the length of the queryset
slice `[first_this_page:first_next_page]` out of `count` records
(viewsets.py `show_list_get_queryset`). -/
def show_list_page_amount (count page per_page columns : Nat) : Nat :=
  min count ((page + 1) * per_page * columns) -
    min count (page * per_page * columns)

/-- The pagination call `show_list` makes when the page is non-empty. -/
def show_list_pagination (count page per_page columns : Nat) :
    List (List PageButton) :=
  gm_show_list_create_pagination (page : Int) count
    (page * per_page * columns) ((page + 1) * per_page * columns)
    (show_list_page_amount count page per_page columns)

/-- viewsets.py `show_list`: the pagination buttons of the reply — empty when
the page holds no records (`There is nothing to show`). -/
def show_list_buttons (count page per_page columns : Nat) :
    List (List PageButton) :=
  if show_list_page_amount count page per_page columns ≠ 0 then
    show_list_pagination count page per_page columns
  else []

/-- C6: for 25 records, 10 per page, 1 column: page 0 renders exactly one
pagination button (next only), page 1 exactly two (previous and next), page 2
exactly one (previous only); in general the set is next-only on the first
page when more pages exist, both on a middle page, previous-only on the last
page, and empty when every record fits on one page. -/
theorem claim_C6 :
    (show_list_buttons 25 0 10 1 = [[.next 1]] ∧
      show_list_buttons 25 1 10 1 = [[.prev 0, .next 2]] ∧
      show_list_buttons 25 2 10 1 = [[.prev 1]] ∧
      (show_list_buttons 25 0 10 1).map List.length = [1] ∧
      (show_list_buttons 25 1 10 1).map List.length = [2] ∧
      (show_list_buttons 25 2 10 1).map List.length = [1]) ∧
    (∀ count per_page columns : Nat,
      count ≤ per_page * columns →
      show_list_buttons count 0 per_page columns = []) ∧
    (∀ count per_page columns : Nat,
      0 < per_page * columns → per_page * columns < count →
      show_list_buttons count 0 per_page columns = [[.next 1]]) ∧
    (∀ count page per_page columns : Nat,
      0 < page * per_page * columns →
      (page + 1) * per_page * columns < count →
      show_list_buttons count page per_page columns =
        [[.prev ((page : Int) - 1), .next ((page : Int) + 1)]]) ∧
    (∀ count page per_page columns : Nat,
      0 < page * per_page * columns →
      page * per_page * columns < count →
      count ≤ (page + 1) * per_page * columns →
      show_list_buttons count page per_page columns =
        [[.prev ((page : Int) - 1)]]) := by
  refine ⟨⟨by decide, by decide, by decide, by decide, by decide, by decide⟩,
    ?_, ?_, ?_, ?_⟩
  · intro count per_page columns hfits
    unfold show_list_buttons show_list_pagination show_list_page_amount
      gm_show_list_create_pagination
    have h1 : (0 + 1) * per_page * columns = per_page * columns := by ring
    have h0 : 0 * per_page * columns = 0 := by ring
    rw [h1, h0]
    split_ifs <;> first | rfl | omega
  · intro count per_page columns hpc hmore
    unfold show_list_buttons show_list_pagination show_list_page_amount
      gm_show_list_create_pagination
    have h1 : (0 + 1) * per_page * columns = per_page * columns := by ring
    have h0 : 0 * per_page * columns = 0 := by ring
    rw [h1, h0]
    split_ifs <;> first | rfl | omega
  · intro count page per_page columns hftp hfnp
    unfold show_list_buttons show_list_pagination show_list_page_amount
      gm_show_list_create_pagination
    have hrel : (page + 1) * per_page * columns =
        page * per_page * columns + per_page * columns := by ring
    have hCpos : 0 < per_page * columns := by
      rcases Nat.eq_zero_or_pos (per_page * columns) with h | h
      · exfalso
        have hz : page * per_page * columns = 0 := by rw [mul_assoc, h, mul_zero]
        omega
      · exact h
    generalize hA : page * per_page * columns = A at hrel hftp ⊢
    generalize hB : (page + 1) * per_page * columns = B at hrel hfnp ⊢
    generalize hC : per_page * columns = C at hrel hCpos
    simp only [Nat.min_def]
    split_ifs <;> first | rfl | omega
  · intro count page per_page columns hftp hlt hle
    unfold show_list_buttons show_list_pagination show_list_page_amount
      gm_show_list_create_pagination
    have hrel : (page + 1) * per_page * columns =
        page * per_page * columns + per_page * columns := by ring
    have hCpos : 0 < per_page * columns := by
      rcases Nat.eq_zero_or_pos (per_page * columns) with h | h
      · exfalso
        have hz : page * per_page * columns = 0 := by rw [mul_assoc, h, mul_zero]
        omega
      · exact h
    generalize hA : page * per_page * columns = A at hrel hftp hlt ⊢
    generalize hB : (page + 1) * per_page * columns = B at hrel hle ⊢
    generalize hC : per_page * columns = C at hrel hCpos
    simp only [Nat.min_def]
    split_ifs <;> first | rfl | omega

/-- Witness for C6 at concrete inputs. -/
theorem claim_C6_witness :
    ((25 : Nat) ≤ 30 * 1 → show_list_buttons 25 0 30 1 = []) ∧
    ((0 : Nat) < 10 * 1 → (10 : Nat) * 1 < 25 →
      show_list_buttons 25 0 10 1 = [[.next 1]]) ∧
    ((0 : Nat) < 1 * 10 * 1 → (1 + 1) * 10 * 1 < 25 →
      show_list_buttons 25 1 10 1 =
        [[.prev ((1 : Int) - 1), .next ((1 : Int) + 1)]]) ∧
    show_list_buttons 25 2 10 1 = [[.prev ((2 : Int) - 1)]] :=
  ⟨fun h => (claim_C6.2.1) 25 30 1 h,
    fun h1 h2 => (claim_C6.2.2.1) 25 10 1 h1 h2,
    fun h1 h2 => (claim_C6.2.2.2.1) 25 1 10 1 h1 h2,
    (claim_C6.2.2.2.2) 25 2 10 1 (by norm_num) (by norm_num) (by norm_num)⟩

/-! Persistence: ext/databasepersistence.py, `DatabasePersistence._load_data`
over the models.py `Persistence` row. -/

/-- The models.py `Persistence` row: serialized maps for conversations,
per-user data, per-chat data, bot data and the callback-data cache. -/
structure PersistenceRecord where
  conversations : List (String × List (Nat × Option Nat))
  user_data : List (Nat × List (String × String))
  chat_data : List (Nat × List (String × String))
  bot_data : List (String × String)
  callback_data : List (List String × List (String × String))
deriving Repr, DecidableEq

/-- What the database fetch `Persistence.objects.get_or_create(id=...)`
produced: the `(instance, created)` pair, or a raised `DatabaseError` when
the durable store is unreachable. -/
inductive FetchResult where
  | fetched (rec : PersistenceRecord) (created : Bool)
  | dbError
deriving Repr, DecidableEq

/-- The in-memory persistence state `_load_data` leaves behind. -/
structure LoadedState where
  instanceLoaded : Bool
  conversations : List (String × List (Nat × Option Nat))
  user_data : List (Nat × List (String × String))
  chat_data : List (Nat × List (String × String))
  bot_data : List (String × String)
  callback_data : Option (List String × List (String × String))
deriving Repr, DecidableEq

/-- ext/databasepersistence.py `DatabasePersistence._load_data`.  On
`DatabaseError` the `except DatabaseError` clause installs empty in-memory
defaults (`instance = None`, empty conversations / user / chat data, default
bot data, `callback_data = None`) and returns normally.  On a successful
fetch, `get_or_create` returns an `(instance, created)` tuple, so the
attribute access `data.conversations` on the tuple raises `AttributeError`,
which the final `except Exception` clause converts into a raised
`TypeError`. -/
def loadData (fetch : FetchResult) : Except String LoadedState :=
  match fetch with
  | .fetched _ _ => .error "TypeError"
  | .dbError => .ok ⟨false, [], [], [], [], none⟩

/-- C9: when reading the persistence record raises a database error, the load
operation establishes empty in-memory defaults — no instance, empty
conversations, user data, chat data and bot data, and no callback data — and
returns without propagating any exception. -/
theorem claim_C9 :
    loadData .dbError = .ok ⟨false, [], [], [], [], none⟩ ∧
    ∃ s, loadData .dbError = .ok s ∧
      s.instanceLoaded = false ∧ s.conversations = [] ∧ s.user_data = [] ∧
      s.chat_data = [] ∧ s.bot_data = [] ∧ s.callback_data = none :=
  ⟨rfl, ⟨⟨false, [], [], [], [], none⟩, rfl, rfl, rfl, rfl, rfl, rfl, rfl⟩⟩

/-! ViewSet dispatch bookkeeping: viewsets.py `TelegramViewSetMixin.dispatch`
(the `TelegramView`-based mixin at the top of the file) together with the
attribute surface of models.py `TelegramAccount`. -/

/-- The writable ORM field names `TelegramAccount` declares in models.py. -/
def telegramAccountFields : List String :=
  ["user", "date_added", "last_active", "seed_code", "telegram_id",
    "telegram_username", "telegram_language_code", "timezone",
    "current_utrl", "current_utrl_code_dttm", "current_utrl_context",
    "current_utrl_form", "is_blocked"]

/-- The getter-only `@property` names `TelegramAccount` declares in
models.py; reading one works, assigning to one raises `AttributeError`. -/
def telegramAccountProperties : List String :=
  ["id", "language_code"]

/-- Python attribute read on a fresh `TelegramAccount` instance: a name that
is neither a field nor a property raises `AttributeError`. -/
def tgAcctReadable (name : String) : Bool :=
  decide (name ∈ telegramAccountFields) || decide (name ∈ telegramAccountProperties)

/-- What the `finally` block of `dispatch` achieved. -/
structure Bookkeeping where
  blockedCleared : Bool
  lastActiveStamped : Bool
  accountSaved : Bool
  logEntries : List String
  error : Option String
deriving Repr, DecidableEq

/-- The `finally` block of viewsets.py `TelegramViewSetMixin.dispatch` for
statement order as in the source: when the user is known, read
`self.user.telegram_account.is_blocked_bot` (clearing it when set), assign
`...language_code`, stamp `...last_active`, `save()`, and append the
ActionLog entry `self.utrl[:64]` when `LOG_REQUESTS` is on.  The first read
raises `AttributeError`: models.py names the flag field `is_blocked`, and no
`is_blocked_bot` attribute exists on `TelegramAccount`; the `language_code`
assignment would likewise raise, since models.py declares it as a getter-only
property. -/
def dispatchFinally (anonymous logRequests : Bool) (utrl : String) :
    Bookkeeping :=
  if anonymous then ⟨false, false, false, [], none⟩
  else if tgAcctReadable "is_blocked_bot" = false then
    ⟨false, false, false, [], some "AttributeError"⟩
  else if decide ("language_code" ∈ telegramAccountProperties) then
    ⟨true, false, false, [], some "AttributeError"⟩
  else
    ⟨true, true, true,
      if logRequests then [String.mk (utrl.toList.take 64)] else [], none⟩

/-- How `dispatch` terminates: `send_answer` ran with a reply, or an
exception propagated. -/
inductive DispatchOutcome where
  | sent (reply : String)
  | raised (exc : String)
deriving Repr, DecidableEq

/-- viewsets.py `TelegramViewSetMixin.dispatch`: the `try` block runs the
permission check, the throttle check and the action handler (whose behaviour
is the `handlerResult` parameter); `except` hands any exception to
`handle_exception`, which returns the translated reply for recognized domain
exceptions and re-raises otherwise; the `finally` block always runs, and an
exception raised inside it replaces any pending result, so `send_answer` is
never reached. -/
def vsDispatch (permOk throttleOk : Bool)
    (handlerResult : Except String String)
    (translated : String → Option String)
    (anonymous logRequests : Bool) (utrl : String) :
    DispatchOutcome × Bookkeeping :=
  let tryResult : Except String String :=
    if permOk = false then .error "PermissionDenied"
    else if throttleOk = false then .error "Throttled"
    else handlerResult
  let afterExcept : Except String String :=
    match tryResult with
    | .ok r => .ok r
    | .error e =>
      match translated e with
      | some reply => .ok reply
      | none => .error e
  let bk := dispatchFinally anonymous logRequests utrl
  match bk.error with
  | some e => (.raised e, bk)
  | none =>
    match afterExcept with
    | .ok r => (.sent r, bk)
    | .error e => (.raised e, bk)

/-- C8: evaluation of `dispatch` for a known (non-anonymous) account.  For
every permission/throttle/handler outcome the bookkeeping `finally` block
dies on its first statement — `is_blocked_bot` is not an attribute of
`TelegramAccount` (the models.py field is `is_blocked`) — so the blocked
flag is not cleared, `last_active` is not stamped, the account is not saved,
no ActionLog entry is appended, and `AttributeError` propagates out of
`dispatch`; the claimed guaranteed bookkeeping never runs. -/
theorem claim_C8_eval :
    (∀ (permOk throttleOk : Bool) (handlerResult : Except String String)
      (translated : String → Option String) (logRequests : Bool)
      (utrl : String),
      vsDispatch permOk throttleOk handlerResult translated false logRequests
          utrl =
        (.raised "AttributeError",
          ⟨false, false, false, [], some "AttributeError"⟩)) ∧
    tgAcctReadable "is_blocked_bot" = false ∧
    ("is_blocked" ∈ telegramAccountFields) ∧
    ("language_code" ∈ telegramAccountProperties) :=
  ⟨fun _ _ _ _ _ _ => rfl, rfl, by decide, by decide⟩

/-! Multi-step form field collection: viewsets.py
`create_or_update_helper`.  The model-form class (`telegram_django_bot/forms`)
and constants.py are not in the source tree; those parts are modelled from
the spec and marked as such. -/

/-- Modelled from the spec: constants.py is not under src/; the three
sentinel marker values are distinct opaque strings ("write it yourself",
"next" for multi-select, "leave blank"). -/
def WRITE_MESSAGE_VARIANT_SYMBOLS : String := "!WMVS!"

/-- Modelled from the spec: the multi-select "next" marker of constants.py. -/
def GO_NEXT_MULTICHOICE_SYMBOLS : String := "!GNMS!"

/-- Modelled from the spec: the "leave blank" marker of constants.py. -/
def NONE_VARIANT_SYMBOLS : String := "!NVS!"

/-- A form field as `create_or_update_helper` sees it: name, whether the
model form requires it, whether it is a `ModelMultipleChoiceField`. -/
structure FormField where
  name : String
  required : Bool
  multichoice : Bool
deriving Repr, DecidableEq

/-- A collected value for one field: the explicit empty value
(`data[field] = None`), one string, or a comma-split list. -/
inductive FieldValue where
  | blank
  | single (s : String)
  | multi (l : List String)
deriving Repr, DecidableEq

/-- Python `data[field] = v` on the field-name→value mapping. -/
def setField (k : String) (v : FieldValue)
    (d : List (String × FieldValue)) : List (String × FieldValue) :=
  if d.any (fun p => p.1 = k) then
    d.map (fun p => if p.1 = k then (k, v) else p)
  else d ++ [(k, v)]

/-- Modelled from the spec: the form's accumulated data (forms is not under
src/).  §3: `current_utrl_form` holds the partial field-name→value mapping of
the multi-step form in progress; instantiating the form merges the stored
mapping with the newly submitted data. -/
def formData (stored data : List (String × FieldValue)) :
    List (String × FieldValue) :=
  data.foldl (fun acc kv => setField kv.1 kv.2 acc) stored

/-- Modelled from the spec: form validation (forms is not under src/).
§4.5: the "leave blank" marker "stores an explicit empty value", and
validation of a provided field fails exactly when an empty value is stored
for a required field. -/
def formIsValid (fields : List FormField)
    (data : List (String × FieldValue)) : Bool :=
  data.all (fun kv =>
    match fields.find? (fun ff => ff.name = kv.1) with
    | some ff => !(ff.required && decide (kv.2 = FieldValue.blank))
    | none => true)

/-- Modelled from the spec: `form.next_field` (forms is not under src/).
§4.5: "the form advances to its next undetermined field" — the first field of
the form's ordered field list with no collected value. -/
def nextField (fields : List FormField)
    (data : List (String × FieldValue)) : Option String :=
  (fields.find? (fun ff => !(data.any (fun kv => kv.1 = ff.name)))).map
    (fun ff => ff.name)

/-- The reply `create_or_update_helper` returns: the free-text prompt
(`gm_self_variant`), the re-prompt with errors (`gm_value_error`), the next
field's prompt (`gm_next_field`), or the final success message
(`gm_success_created` / updated `show_elem`). -/
inductive FormReply where
  | selfVariantPrompt (field : String)
  | valueError (field : String)
  | nextFieldPrompt (field : String)
  | successCreated
  | elemUpdated
deriving Repr, DecidableEq

/-- The reply and the form data persisted by `form.save`. -/
structure HelperResult where
  reply : FormReply
  stored : List (String × FieldValue)
deriving Repr, DecidableEq

/-- viewsets.py `create_or_update_helper(field, value, func_response,
instance, initial_data)` over the spec-modelled form.  `message` is
`self.update.message` (with its `text` inside), `stored` the account's
accumulated form data.  Control flow as in the source: classify the sent
value (the three sentinel markers, an explicit value, or the message text),
record it into `data` (comma-split for a multi-choice field), keep
`want_1more_variant_for_multichoice` only for multi-choice fields, then
answer with the write-it-yourself prompt, the validation error re-prompt, the
same field's prompt (multi-choice collecting more values, or change showing
variants), the next undetermined field's prompt, or the final success. -/
def create_or_update_helper (fields : List FormField) (field : Option String)
    (value : Option String) (func_response : String)
    (message : Option (Option String))
    (stored initialData : List (String × FieldValue)) : HelperResult :=
  let is_multichoice_field : Bool :=
    match field with
    | some f => (((fields.find? (fun ff => ff.name = f)).map
        (fun ff => ff.multichoice)).getD false)
    | none => false
  let show_field_variants_for_update : Bool :=
    decide (func_response = "change") && decide (value = none) &&
      decide (message = none)
  let fieldTruthy : Option String :=
    match field with
    | some f => if f = "" then none else some f
    | none => none
  let valueTruthy : Option String :=
    match value with
    | some v => if v = "" then none else some v
    | none => none
  let step : Bool × Bool × List (String × FieldValue) :=
    match fieldTruthy with
    | none => (false, true, initialData)
    | some f =>
      match valueTruthy with
      | some v =>
        if v = WRITE_MESSAGE_VARIANT_SYMBOLS then (true, true, initialData)
        else if v = GO_NEXT_MULTICHOICE_SYMBOLS then
          (false, false, initialData)
        else if v = NONE_VARIANT_SYMBOLS then
          (false, true, setField f .blank initialData)
        else
          (false, true, setField f
            (if is_multichoice_field then .multi (pySplitChar ',' v)
              else .single v) initialData)
      | none =>
        match message with
        | some (some t) =>
          (false, true, setField f
            (if is_multichoice_field then .multi (pySplitChar ',' t)
              else .single t) initialData)
        | _ => (false, true, initialData)
  let want_write_self_variant : Bool := step.1
  let want_1more : Bool := step.2.1 && is_multichoice_field
  let form := formData stored step.2.2
  if want_write_self_variant then
    ⟨.selfVariantPrompt (fieldTruthy.getD ""), stored⟩
  else if formIsValid fields form = false then
    ⟨.valueError (fieldTruthy.getD
      (((fields.getLast?).map (fun ff => ff.name)).getD "")), stored⟩
  else
    let newStored := if show_field_variants_for_update then stored else form
    if want_1more || show_field_variants_for_update then
      ⟨.nextFieldPrompt (field.getD ""), newStored⟩
    else
      match nextField fields form with
      | some nf => ⟨.nextFieldPrompt nf, newStored⟩
      | none =>
        if func_response = "create" then ⟨.successCreated, newStored⟩
        else ⟨.elemUpdated, newStored⟩

theorem setField_mem (f : String) (v : FieldValue)
    (d : List (String × FieldValue)) :
    (setField f v d).any (fun p => p.1 = f) = true := by
  unfold setField
  split
  next h =>
    rw [List.any_eq_true] at h ⊢
    obtain ⟨kv, hkv, hf⟩ := h
    simp only [decide_eq_true_eq] at hf
    exact ⟨(f, v), List.mem_map.mpr ⟨kv, hkv, by rw [if_pos hf]⟩, by simp⟩
  next h =>
    rw [List.any_eq_true]
    exact ⟨(f, v), List.mem_append_right _ (List.mem_singleton_self _), by simp⟩

theorem setField_entries (f : String) (v : FieldValue)
    (d : List (String × FieldValue)) :
    ∀ p ∈ setField f v d, p.1 = f → p = (f, v) := by
  unfold setField
  split
  next hany =>
    intro p hp hpf
    rw [List.mem_map] at hp
    obtain ⟨q, hq, hmap⟩ := hp
    by_cases hqf : q.1 = f
    · rw [if_pos hqf] at hmap; exact hmap.symm
    · rw [if_neg hqf] at hmap; rw [← hmap] at hpf; exact absurd hpf hqf
  next hany =>
    intro p hp hpf
    rcases List.mem_append.mp hp with h | h
    · exact absurd (List.any_eq_true.mpr ⟨p, h, by simp [hpf]⟩) hany
    · exact List.mem_singleton.mp h

theorem setField_mem_cases (f : String) (v : FieldValue)
    (d : List (String × FieldValue)) :
    ∀ p ∈ setField f v d, p = (f, v) ∨ p ∈ d := by
  unfold setField
  split
  · intro p hp
    rw [List.mem_map] at hp
    obtain ⟨q, hq, hmap⟩ := hp
    by_cases hqf : q.1 = f
    · left; rw [if_pos hqf] at hmap; exact hmap.symm
    · right; rw [if_neg hqf] at hmap; exact hmap ▸ hq
  · intro p hp
    rcases List.mem_append.mp hp with h | h
    · right; exact h
    · left; exact List.mem_singleton.mp h

theorem map_overwrite_id (f : String) (v : FieldValue)
    (l : List (String × FieldValue))
    (hl : ∀ p ∈ l, p.1 = f → p = (f, v)) :
    l.map (fun p => if p.1 = f then (f, v) else p) = l := by
  induction l with
  | nil => rfl
  | cons a tl ih =>
    simp only [List.map_cons]
    rw [ih (fun p hp hpf => hl p (List.mem_cons_of_mem a hp) hpf)]
    by_cases ha : a.1 = f
    · rw [if_pos ha, ← hl a (List.mem_cons_self a tl) ha]
    · rw [if_neg ha]

theorem setField_idem (f : String) (v : FieldValue)
    (d : List (String × FieldValue)) :
    setField f v (setField f v d) = setField f v d := by
  have h1 := setField_mem f v d
  conv_lhs => rw [setField]
  rw [if_pos h1]
  exact map_overwrite_id f v _ (setField_entries f v d)

theorem formIsValid_setBlank (fields : List FormField) (f : String)
    (stored : List (String × FieldValue))
    (hfind : fields.find? (fun ff => ff.name = f) = some ⟨f, false, false⟩)
    (hvalid : formIsValid fields stored = true) :
    formIsValid fields (setField f .blank stored) = true := by
  unfold formIsValid at hvalid ⊢
  rw [List.all_eq_true] at hvalid ⊢
  intro kv hkv
  rcases setField_mem_cases f .blank stored kv hkv with h | h
  · subst h
    simp only [hfind]
    rfl
  · exact hvalid kv h

theorem helper_none_marker (fields : List FormField) (f : String)
    (stored : List (String × FieldValue))
    (hfind : fields.find? (fun ff => ff.name = f) = some ⟨f, false, false⟩)
    (hne : f ≠ "")
    (hvalid : formIsValid fields stored = true) :
    create_or_update_helper fields (some f) (some NONE_VARIANT_SYMBOLS)
        "create" none stored [] =
      (match nextField fields (setField f .blank stored) with
        | some nf => ⟨.nextFieldPrompt nf, setField f .blank stored⟩
        | none => ⟨.successCreated, setField f .blank stored⟩) := by
  have hvalid2 : formIsValid fields (setField f FieldValue.blank stored) = true :=
    formIsValid_setBlank fields f stored hfind hvalid
  unfold create_or_update_helper
  simp only [hfind, Option.map_some, Option.getD_some, if_neg hne]
  simp only [NONE_VARIANT_SYMBOLS, WRITE_MESSAGE_VARIANT_SYMBOLS,
    GO_NEXT_MULTICHOICE_SYMBOLS]
  simp [hvalid2, formData]
  have hsf : setField f FieldValue.blank [] = [(f, FieldValue.blank)] := rfl
  rw [hsf]
  simp only [List.foldl]
  rw [if_neg (by rw [hvalid2]; simp)]

/-- C7 counterexample: for the optional MULTI-select field `tags` of the
concrete form `[tags (optional, multiselect), title (required)]`, submitting
the "leave blank" marker stores the empty value and passes validation, but
the reply re-prompts the same field `tags` (`want_1more_variant_for_
multichoice` stays set for a multi-choice field), not the next undetermined
field `title` — refuting the claim's "advances the form to its next
undetermined field" for every optional field. -/
theorem claim_C7_counterexample :
    (create_or_update_helper
        [⟨"tags", false, true⟩, ⟨"title", true, false⟩] (some "tags")
        (some NONE_VARIANT_SYMBOLS) "create" none [] []).reply =
      FormReply.nextFieldPrompt "tags" ∧
    (create_or_update_helper
        [⟨"tags", false, true⟩, ⟨"title", true, false⟩] (some "tags")
        (some NONE_VARIANT_SYMBOLS) "create" none [] []).stored =
      [("tags", FieldValue.blank)] ∧
    nextField [⟨"tags", false, true⟩, ⟨"title", true, false⟩]
      [("tags", FieldValue.blank)] = some "title" ∧
    FormReply.nextFieldPrompt "tags" ≠ FormReply.nextFieldPrompt "title" ∧
    (∀ g, FormReply.nextFieldPrompt "tags" ≠ FormReply.valueError g) :=
  ⟨rfl, rfl, rfl, by decide, fun g h => FormReply.noConfusion h⟩

/-- C7 (amended): submitting the "leave blank" marker for an optional
non-multiselect field stores the explicit empty value, passes validation
(the reply is never a validation error), and advances to the form's next
undetermined field (or finishes with success); resubmitting the same marker
for the same field any number of times yields the same form state and the
same reply.  For an optional multiselect field the marker also stores the
empty value without a validation error, but the same field is re-prompted
instead of advancing. -/
theorem claim_C7_amended (fields : List FormField) (f : String)
    (stored : List (String × FieldValue))
    (hfind : fields.find? (fun ff => ff.name = f) = some ⟨f, false, false⟩)
    (hne : f ≠ "")
    (hvalid : formIsValid fields stored = true) :
    (create_or_update_helper fields (some f) (some NONE_VARIANT_SYMBOLS)
        "create" none stored []).stored = setField f .blank stored ∧
    formIsValid fields (setField f .blank stored) = true ∧
    (create_or_update_helper fields (some f) (some NONE_VARIANT_SYMBOLS)
        "create" none stored []).reply =
      (match nextField fields (setField f .blank stored) with
        | some nf => FormReply.nextFieldPrompt nf
        | none => FormReply.successCreated) ∧
    (∀ g, (create_or_update_helper fields (some f) (some NONE_VARIANT_SYMBOLS)
        "create" none stored []).reply ≠ FormReply.valueError g) ∧
    create_or_update_helper fields (some f) (some NONE_VARIANT_SYMBOLS)
        "create" none
        (create_or_update_helper fields (some f) (some NONE_VARIANT_SYMBOLS)
          "create" none stored []).stored [] =
      create_or_update_helper fields (some f) (some NONE_VARIANT_SYMBOLS)
        "create" none stored [] := by
  have h1 := helper_none_marker fields f stored hfind hne hvalid
  have hv2 := formIsValid_setBlank fields f stored hfind hvalid
  have hstored : (create_or_update_helper fields (some f)
      (some NONE_VARIANT_SYMBOLS) "create" none stored []).stored =
      setField f .blank stored := by
    rw [h1]
    cases nextField fields (setField f .blank stored) <;> rfl
  refine ⟨hstored, hv2, ?_, ?_, ?_⟩
  · rw [h1]
    cases nextField fields (setField f .blank stored) <;> rfl
  · intro g
    rw [h1]
    cases nextField fields (setField f .blank stored) <;> simp
  · rw [hstored]
    have h2 := helper_none_marker fields f (setField f .blank stored) hfind hne
      hv2
    rw [setField_idem] at h2
    rw [h2, h1]

/-- Witness for the amended C7 at a concrete form. -/
theorem claim_C7_amended_witness :
    (([⟨"title", true, false⟩, ⟨"note", false, false⟩] :
        List FormField).find? (fun ff => ff.name = "note") =
      some ⟨"note", false, false⟩) ∧
    (("note" : String) ≠ "") ∧
    formIsValid [⟨"title", true, false⟩, ⟨"note", false, false⟩] [] = true ∧
    ((create_or_update_helper [⟨"title", true, false⟩, ⟨"note", false, false⟩]
        (some "note") (some NONE_VARIANT_SYMBOLS) "create" none [] []).stored =
      setField "note" .blank [] ∧
    formIsValid [⟨"title", true, false⟩, ⟨"note", false, false⟩]
      (setField "note" .blank []) = true ∧
    (create_or_update_helper [⟨"title", true, false⟩, ⟨"note", false, false⟩]
        (some "note") (some NONE_VARIANT_SYMBOLS) "create" none [] []).reply =
      (match nextField [⟨"title", true, false⟩, ⟨"note", false, false⟩]
          (setField "note" .blank []) with
        | some nf => FormReply.nextFieldPrompt nf
        | none => FormReply.successCreated) ∧
    (∀ g, (create_or_update_helper
        [⟨"title", true, false⟩, ⟨"note", false, false⟩]
        (some "note") (some NONE_VARIANT_SYMBOLS) "create" none [] []).reply ≠
      FormReply.valueError g) ∧
    create_or_update_helper [⟨"title", true, false⟩, ⟨"note", false, false⟩]
        (some "note") (some NONE_VARIANT_SYMBOLS) "create" none
        (create_or_update_helper
          [⟨"title", true, false⟩, ⟨"note", false, false⟩]
          (some "note") (some NONE_VARIANT_SYMBOLS) "create" none [] []).stored
        [] =
      create_or_update_helper [⟨"title", true, false⟩, ⟨"note", false, false⟩]
        (some "note") (some NONE_VARIANT_SYMBOLS) "create" none [] []) :=
  ⟨rfl, by decide, rfl,
    claim_C7_amended [⟨"title", true, false⟩, ⟨"note", false, false⟩] "note"
      [] rfl (by decide) rfl⟩

end TDBot
